import Mathlib

/-!
Verification development for the dlpxdbprofiler repository.

The Python sources under src/dlpxdbprofiler are shallowly embedded as Lean
definitions: remote HTTP calls and database queries become explicit oracles
or request logs, exceptions become Except values, and the interactive menu
layer is out of scope. Each definition carries a doc comment naming the
source function it translates.
-/

namespace DbProfiler

/-! ## Oracle introspector construction (db_oracle.py) -/

/-- Python truthiness of an optional string argument: None and the empty
string are falsy, every other string is truthy. The checks in the OracleDB
constructor test the bare values of sid and service_name in boolean
position, so this is the notion of "set" that the code enforces. -/
def pyTruthy : Option String → Bool
  | none => false
  | some s => !(s == "")

/-- Error raised by the Oracle helper. The source has a single exception
class OracleDBError; the two construction-time mutual-exclusivity messages
are configuration errors and the connect failure is a connection error,
distinguished here by constructor. -/
inductive OracleErr where
  | config (msg : String)
  | connectFail (msg : String)
deriving DecidableEq

/-- Predicate picking out the configuration-error outcome of the Oracle
constructor. -/
def isConfigError : Except OracleErr Unit → Bool
  | Except.error (OracleErr.config _) => true
  | _ => false

/-- Translation of OracleDB.init, src/dlpxdbprofiler/db_oracle.py lines
72-128. The two mutual-exclusivity checks run before the oracledb.connect
call; the connect call itself is external and is modeled by the boolean
connectOk. The second component counts connection attempts made. -/
def oracleInit (sid serviceName : Option String) (connectOk : Bool) :
    Except OracleErr Unit × Nat :=
  if pyTruthy sid && pyTruthy serviceName then
    (Except.error (OracleErr.config
      "Both SID and SERVICE_NAME were provided to OracleDB. They must be mutually exclusive."), 0)
  else if !(pyTruthy sid) && !(pyTruthy serviceName) then
    (Except.error (OracleErr.config
      "Neither SID nor SERVICE_NAME was provided to OracleDB. One of them must be set."), 0)
  else if connectOk then
    (Except.ok (), 1)
  else
    (Except.error (OracleErr.connectFail "Failed to connect to Oracle"), 1)

/-! ## Schema discovery (db_oracle.py, db_mssql.py, db_postgres.py)

Each list_schemas method runs one catalog query and post-processes the rows.
The database catalog is modeled as the list of raw name rows the catalog
view holds, in arbitrary order; the SQL ORDER BY is modeled by a
lexicographic sort, SQL DISTINCT by List.dedup, and SQL WHERE by
List.filter. -/

/-- Lexicographic comparison of character lists by code point, the order
the catalog ORDER BY clauses produce on these names. -/
def strLeAux : List Char → List Char → Bool
  | [], _ => true
  | _ :: _, [] => false
  | a :: as, b :: bs =>
    if a.toNat < b.toNat then true
    else if b.toNat < a.toNat then false
    else strLeAux as bs

/-- Lexicographic order on strings, by code point. -/
def strLe (a b : String) : Bool := strLeAux a.data b.data

/-- Propositional form of the lexicographic order, used as the sorting
relation. -/
def strLeP (a b : String) : Prop := strLe a b = true

instance : DecidableRel strLeP := fun a b => by
  unfold strLeP; infer_instance

theorem strLeAux_total (as bs : List Char) :
    strLeAux as bs = true ∨ strLeAux bs as = true := by
  induction as generalizing bs with
  | nil => left; rfl
  | cons a as ih =>
    cases bs with
    | nil => right; rfl
    | cons b bs =>
      rcases Nat.lt_trichotomy a.toNat b.toNat with h | h | h
      · left; simp [strLeAux, h]
      · have h1 : ¬ a.toNat < b.toNat := by omega
        have h2 : ¬ b.toNat < a.toNat := by omega
        rcases ih bs with hh | hh
        · left; simp [strLeAux, h1, h2, hh]
        · right; simp [strLeAux, h1, h2, hh]
      · right; simp [strLeAux, h]

theorem strLeAux_trans (as : List Char) : ∀ bs cs,
    strLeAux as bs = true → strLeAux bs cs = true → strLeAux as cs = true := by
  induction as with
  | nil => intro bs cs _ _; rfl
  | cons a as ih =>
    intro bs cs hab hbc
    cases bs with
    | nil => simp [strLeAux] at hab
    | cons b bs =>
      cases cs with
      | nil => simp [strLeAux] at hbc
      | cons c cs =>
        by_cases h1 : a.toNat < b.toNat
        · by_cases h2 : b.toNat < c.toNat
          · have h3 : a.toNat < c.toNat := Nat.lt_trans h1 h2
            simp [strLeAux, h3]
          · by_cases h3 : c.toNat < b.toNat
            · simp [strLeAux, h2, h3] at hbc
            · have h4 : a.toNat < c.toNat := by omega
              simp [strLeAux, h4]
        · by_cases h1' : b.toNat < a.toNat
          · simp [strLeAux, h1, h1'] at hab
          · by_cases h2 : b.toNat < c.toNat
            · have h3 : a.toNat < c.toNat := by omega
              simp [strLeAux, h3]
            · by_cases h3 : c.toNat < b.toNat
              · simp [strLeAux, h2, h3] at hbc
              · have h4 : ¬ a.toNat < c.toNat := by omega
                have h5 : ¬ c.toNat < a.toNat := by omega
                have hab' : strLeAux as bs = true := by
                  simpa [strLeAux, h1, h1'] using hab
                have hbc' : strLeAux bs cs = true := by
                  simpa [strLeAux, h2, h3] using hbc
                simp [strLeAux, h4, h5, ih bs cs hab' hbc']

instance : IsTotal String strLeP :=
  ⟨fun a b => strLeAux_total a.data b.data⟩

instance : IsTrans String strLeP :=
  ⟨fun a b c => strLeAux_trans a.data b.data c.data⟩

/-- The fixed system-schema denylist of OracleDB.list_schemas,
src/dlpxdbprofiler/db_oracle.py lines 134-185. -/
def oracleSystemSchemas : List String :=
  ["ANONYMOUS", "APEX_040000", "APEX_040200", "APEX_050000", "APEX_050100",
   "APEX_PUBLIC_USER", "APPQOSSYS", "AUDSYS", "CTXSYS", "DBSNMP", "DIP",
   "DVF", "DVSYS", "EXFSYS", "FLOWS_FILES", "GSMADMIN_INTERNAL",
   "GSMCATUSER", "GSMUSER", "HR", "IX", "LBACSYS", "MDDATA", "MDSYS", "OE",
   "OLAPSYS", "ORACLE_OCM", "ORDDATA", "ORDPLUGINS", "ORDSYS", "OUTLN",
   "OWBSYS", "PM", "SCOTT", "SH", "SI_INFORMTN_SCHEMA",
   "SPATIAL_CSW_ADMIN_USR", "SPATIAL_WFS_ADMIN_USR", "SYS", "SYSBACKUP",
   "SYSDG", "SYSKM", "SYSMAN", "SYSTEM", "WKPROXY", "WKSYS", "WK_TEST",
   "WMSYS", "XDB", "XS$NULL", "OPS$ORACLE"]

/-- Translation of OracleDB.list_schemas, db_oracle.py lines 130-198. The
query SELECT DISTINCT OWNER FROM ALL_TABLES ORDER BY OWNER is modeled over
the catalog given as the OWNER values of the ALL_TABLES rows; the Python
list comprehension then drops the denylisted names. -/
def oracleListSchemas (catalog : List String) : List String :=
  (List.insertionSort strLeP catalog.dedup).filter
    (fun r => !(oracleSystemSchemas.contains r))

/-- Translation of MSSQLDB.list_schemas, db_mssql.py lines 75-96. The query
filters sys.schemas with name NOT IN ('sys','INFORMATION_SCHEMA') and
orders by name. -/
def mssqlListSchemas (catalog : List String) : List String :=
  List.insertionSort strLeP
    (catalog.filter (fun n => !(n == "sys") && !(n == "INFORMATION_SCHEMA")))

/-- SQL LIKE pattern pg_% as used by PostgresDB.list_schemas: literal p,
literal g, a single-character wildcard, then any tail; so a name matches
exactly when it starts with pg and has at least three characters. -/
def matchesPgPattern (n : String) : Bool :=
  n.data.take 2 == ['p', 'g'] && decide (3 ≤ n.data.length)

/-- Translation of PostgresDB.list_schemas, db_postgres.py lines 88-110.
The query keeps pg_namespace rows with nspname NOT LIKE 'pg_%' and nspname
different from information_schema, ordered by nspname. -/
def postgresListSchemas (catalog : List String) : List String :=
  List.insertionSort strLeP
    (catalog.filter (fun n => !(matchesPgPattern n) && !(n == "information_schema")))

/-! ## Bulk table update (ce_client.py) -/

/-- A remote HTTP request issued by the bulk table update, with the
tableMetadata payload entries as (tableName, rulesetId) pairs. -/
structure BulkRequest where
  method : String
  path : String
  entries : List (String × Nat)
deriving DecidableEq

/-- Translation of CEClient.bulk_add_tables_to_ruleset, ce_client.py lines
438-459: an empty table list returns before any request is built; otherwise
a single PUT is issued whose tableMetadata payload holds one
(tableName, rulesetId) entry per table name. The result is the list of
requests sent. -/
def bulkAddTablesToRuleset (rulesetId : Nat) (tableNames : List String) :
    List BulkRequest :=
  if tableNames.isEmpty then []
  else
    [{ method := "PUT"
       path := "/database-rulesets/" ++ toString rulesetId ++ "/bulk-table-update"
       entries := tableNames.map (fun t => (t, rulesetId)) }]

/-! ## Connection lifecycle of the introspectors -/

/-- Database-side effects a helper method performs, in order. -/
inductive DBEvent where
  | connect
  | query (sql : String)
  | close
deriving DecidableEq

/-- A discovery call is short-lived when its event trace is exactly
connect, one query, close. -/
def shortLivedCall : List DBEvent → Bool
  | [DBEvent.connect, DBEvent.query _, DBEvent.close] => true
  | _ => false

/-- Holds of a trace that only queries, neither connecting nor closing. -/
def queryOnly (evs : List DBEvent) : Bool :=
  evs.all fun e =>
    match e with
    | DBEvent.query _ => true
    | _ => false

/-- Connection events of OracleDB.init, db_oracle.py lines 105-128: after
the configuration checks it connects once and stores the connection on
self.connection. -/
def oracleInitEvents : List DBEvent := [DBEvent.connect]

/-- Connection events of OracleDB.list_schemas, db_oracle.py lines 130-198:
it opens a cursor on the stored self.connection and queries; it neither
connects nor closes. -/
def oracleListSchemasEvents : List DBEvent :=
  [DBEvent.query "SELECT DISTINCT OWNER FROM ALL_TABLES ORDER BY OWNER"]

/-- Connection events of OracleDB.list_tables_for_schema, db_oracle.py
lines 200-215: a query on the stored connection only. -/
def oracleListTablesEvents : List DBEvent :=
  [DBEvent.query
    "SELECT TABLE_NAME FROM ALL_TABLES WHERE OWNER = :owner ORDER BY TABLE_NAME"]

/-- Connection events of OracleDB.close, db_oracle.py lines 217-223: the
stored connection is closed only here. -/
def oracleCloseEvents : List DBEvent := [DBEvent.close]

/-- Connection events of MSSQLDB.list_schemas, db_mssql.py lines 75-96:
connect, query, close in a finally block. -/
def mssqlListSchemasEvents : List DBEvent :=
  [DBEvent.connect,
   DBEvent.query
     "SELECT name FROM sys.schemas WHERE name NOT IN ('sys','INFORMATION_SCHEMA') ORDER BY name",
   DBEvent.close]

/-- Connection events of MSSQLDB.list_tables_for_schema, db_mssql.py lines
98-120: connect, query, close in a finally block. -/
def mssqlListTablesEvents : List DBEvent :=
  [DBEvent.connect,
   DBEvent.query
     "SELECT TABLE_NAME FROM INFORMATION_SCHEMA.TABLES WHERE TABLE_TYPE = 'BASE TABLE' AND TABLE_SCHEMA = %s ORDER BY TABLE_NAME",
   DBEvent.close]

/-- Connection events of PostgresDB.list_schemas, db_postgres.py lines
88-110: connect, query, close in a finally block. -/
def postgresListSchemasEvents : List DBEvent :=
  [DBEvent.connect,
   DBEvent.query
     "SELECT nspname FROM pg_catalog.pg_namespace WHERE nspname NOT LIKE 'pg_%' AND nspname != 'information_schema' ORDER BY nspname",
   DBEvent.close]

/-- Connection events of PostgresDB.list_tables_for_schema, db_postgres.py
lines 112-140: connect, query, close in a finally block. -/
def postgresListTablesEvents : List DBEvent :=
  [DBEvent.connect,
   DBEvent.query
     "SELECT table_name FROM information_schema.tables WHERE table_schema = %s AND table_type = 'BASE TABLE' ORDER BY table_name",
   DBEvent.close]

/-- Connection events of MySQLDB.list_tables, db_mysql.py lines 86-112:
connect, query, close in a finally block. -/
def mysqlListTablesEvents : List DBEvent :=
  [DBEvent.connect,
   DBEvent.query
     "SELECT table_name FROM information_schema.tables WHERE table_schema = %s AND table_type = 'BASE TABLE' ORDER BY table_name",
   DBEvent.close]

/-! ## Ensure-application against the remote engine (ce_client.py) -/

/-- An application resource on the remote compliance engine. -/
structure CEApp where
  applicationId : Nat
  applicationName : String
deriving DecidableEq

/-- Remote-engine application state. The remote API is the external
collaborator of section 6 of the design: a create appends an application
with a fresh id and the given name, and the list endpoint returns the
stored applications. -/
structure CEAppState where
  apps : List CEApp
  nextId : Nat
deriving DecidableEq

/-- Translation of CEClient.list_applications, ce_client.py lines 248-263:
the responseList sorted numerically by applicationId. -/
def listApplicationsSorted (st : CEAppState) : List CEApp :=
  List.insertionSort (fun a b => a.applicationId ≤ b.applicationId) st.apps

/-- Result of an ensure_application call: the returned id, the remote state
after the call, and the number of create (POST /applications) requests
issued. -/
structure EnsureResult where
  id : Nat
  state : CEAppState
  creates : Nat
deriving DecidableEq

/-- Translation of CEClient.ensure_application, ce_client.py lines 138-154:
list the applications, return the id of the first whose applicationName
equals the argument exactly; otherwise POST a create and return the new
id. The create round trip is modeled as appending a fresh-id application
carrying the given name. -/
def ensureApplication (st : CEAppState) (name : String) : EnsureResult :=
  match (listApplicationsSorted st).find? (fun a => a.applicationName == name) with
  | some app => { id := app.applicationId, state := st, creates := 0 }
  | none =>
      { id := st.nextId
        state := { apps := st.apps ++ [{ applicationId := st.nextId, applicationName := name }]
                   nextId := st.nextId + 1 }
        creates := 1 }

/-! ## Profile-job execution scheduler (main.py)

The remote engine is abstracted by two oracles: startO maps the submission
ordinal to the execution id the POST /executions call returns, and statusO
maps a poll round and an execution id to the status string the GET
/executions call returns. -/

/-- A profile job as listed for an environment. -/
structure Job where
  profileJobId : Nat
  jobName : String
deriving DecidableEq

/-- Python sorted with key int profileJobId, main.py lines 753 and 881:
sort ascending by job id. -/
def sortJobs (jobs : List Job) : List Job :=
  List.insertionSort (fun a b => a.profileJobId ≤ b.profileJobId) jobs

instance : IsTotal Job (fun a b => a.profileJobId ≤ b.profileJobId) :=
  ⟨fun a b => Nat.le_total a.profileJobId b.profileJobId⟩

instance : IsTrans Job (fun a b => a.profileJobId ≤ b.profileJobId) :=
  ⟨fun _ _ _ hab hbc => Nat.le_trans hab hbc⟩

/-- Terminal execution statuses, main.py lines 793-805: SUCCEEDED, FAILED,
ERROR and CANCELLED remove an execution from the running list; anything
else keeps it there. -/
def isTerminalStatus (s : String) : Bool :=
  s == "SUCCEEDED" || s == "FAILED" || s == "ERROR" || s == "CANCELLED"

/-- State of the bounded-parallel loop of _run_profile_jobs_parallel: the
sorted jobs not yet submitted (the suffix of pending from index on), the
running entries as (jobId, executionId) pairs, and the job ids submitted
so far in submission order. -/
structure PScheduler where
  pend : List Job
  running : List (Nat × Nat)
  subs : List Nat
deriving DecidableEq

/-- Translation of the inner submission loop, main.py lines 761-774: while
jobs remain pending and fewer than maxParallel are running, start the next
execution and append it to running. Returns the final state together with
the state after each single submission. -/
def fillAux (maxP : Nat) (startO : Nat → Nat) :
    List Job → List (Nat × Nat) → List Nat → PScheduler × List PScheduler
  | [], running, subs => (⟨[], running, subs⟩, [])
  | j :: rest, running, subs =>
    if running.length < maxP then
      ((fillAux maxP startO rest (running ++ [(j.profileJobId, startO subs.length)])
          (subs ++ [j.profileJobId])).1,
       PScheduler.mk rest (running ++ [(j.profileJobId, startO subs.length)])
          (subs ++ [j.profileJobId]) ::
        (fillAux maxP startO rest (running ++ [(j.profileJobId, startO subs.length)])
          (subs ++ [j.profileJobId])).2)
    else (⟨j :: rest, running, subs⟩, [])

/-- Translation of the polling pass, main.py lines 780-806: fetch the
status of every running entry and drop the ones whose status is terminal.
The poll round feeds the status oracle. -/
def pollRunning (statusO : Nat → Nat → String) (pollRound : Nat)
    (st : PScheduler) : PScheduler :=
  { st with running :=
      st.running.filter (fun it => !(isTerminalStatus (statusO pollRound it.2))) }

/-- Translation of the outer loop of _run_profile_jobs_parallel, main.py
lines 759-806, with explicit fuel bounding the number of poll cycles (the
Python loop runs until the pending queue and the running list are both
empty, which an adversarial remote can postpone forever). Returns the
final state and every intermediate state the loop passes through: one
snapshot after each submission and one after each polling pass. -/
def parallelLoop (maxP : Nat) (startO : Nat → Nat)
    (statusO : Nat → Nat → String) :
    Nat → Nat → PScheduler → PScheduler × List PScheduler
  | 0, _, st => (st, [])
  | fuel + 1, pollRound, st =>
    if st.pend ≠ [] ∨ st.running ≠ [] then
      if (fillAux maxP startO st.pend st.running st.subs).1.running.isEmpty then
        fillAux maxP startO st.pend st.running st.subs
      else
        ((parallelLoop maxP startO statusO fuel (pollRound + 1)
            (pollRunning statusO pollRound
              (fillAux maxP startO st.pend st.running st.subs).1)).1,
         (fillAux maxP startO st.pend st.running st.subs).2 ++
           pollRunning statusO pollRound
               (fillAux maxP startO st.pend st.running st.subs).1 ::
             (parallelLoop maxP startO statusO fuel (pollRound + 1)
               (pollRunning statusO pollRound
                 (fillAux maxP startO st.pend st.running st.subs).1)).2)
    else (st, [])

/-- Translation of _run_profile_jobs_parallel, main.py lines 741-806:
clamp maxParallel to at least 1 (main.py lines 749-750), sort the jobs
ascending by profileJobId (line 753), then run the submit-and-poll loop
from the empty state. -/
def runProfileJobsParallel (jobs : List Job) (maxParallel : Int)
    (startO : Nat → Nat) (statusO : Nat → Nat → String) (fuel : Nat) :
    PScheduler × List PScheduler :=
  let maxP : Nat := if maxParallel ≤ 0 then 1 else maxParallel.toNat
  parallelLoop maxP startO statusO fuel 0 ⟨sortJobs jobs, [], []⟩

/-- Translation of the polling loop of _run_single_profile_job, main.py
lines 723-737: true when the execution reaches a terminal status within
fuel polls. -/
def reachesTerminal (statusO : Nat → Nat → String) (execId fuel : Nat) : Bool :=
  (List.range fuel).any fun pollRound => isTerminalStatus (statusO pollRound execId)

/-- Translation of the serial ALL-jobs mode, main.py lines 879-884: submit
and fully poll each job in ascending job-id order, one at a time; a job
whose execution never reaches a terminal status blocks the loop, so the
jobs after it are never submitted. Returns the submitted job ids in
submission order; the Nat argument is the submission ordinal feeding the
execution-id oracle. -/
def runSerialSubs (statusO : Nat → Nat → String) (startO : Nat → Nat)
    (fuel : Nat) : List Job → Nat → List Nat
  | [], _ => []
  | j :: rest, n =>
    j.profileJobId ::
      (if reachesTerminal statusO (startO n) fuel then
        runSerialSubs statusO startO fuel rest (n + 1)
      else [])

/-- Serial ALL-jobs mode entry, main.py lines 879-884. -/
def runProfileJobsSerial (jobs : List Job) (startO : Nat → Nat)
    (statusO : Nat → Nat → String) (fuel : Nat) : List Nat :=
  runSerialSubs statusO startO fuel (sortJobs jobs) 0

/-! ## Provisioning pipeline (main.py _create_connectors_for_engine) -/

/-- Error raised by the remote client: CEClient._error raises the single
exception class CEError, in particular on any non-2xx HTTP response; the
noToken constructor is the message it raises when the Authorization token
is missing (ce_client.py lines 46-48). -/
inductive CEErr where
  | remote (msg : String)
  | noToken
deriving DecidableEq

/-- Per-schema behavior of the remote engine and the introspected database
during one pipeline run: the connector lookup result, the outcomes of the
create calls, and the discovered tables. An Except.error is a CEError the
client raises (non-2xx response); createProfileJob returning ok none
models the 2xx-without-profileJobId case of ce_client.py lines 481-486,
the only creation failure the client converts to a value instead of an
exception. -/
structure SchemaRemote where
  findConnector : Option Nat
  createConnector : Except CEErr Nat
  createRuleset : Nat → Except CEErr Nat
  tables : List String
  bulkAdd : Nat → List String → Except CEErr Unit
  createProfileJob : Nat → Except CEErr (Option Nat)

/-- Observable per-schema effects of the pipeline loop. A visited event is
recorded when the iteration for a schema starts. -/
inductive PEvent where
  | visited (s : String)
  | connectorReady (s : String) (id : Nat)
  | rulesetCreated (s : String) (id : Nat)
  | tablesAdded (s : String) (n : Nat)
  | jobCreated (s : String) (id : Nat)
deriving DecidableEq

/-- Translation of one iteration of the per-schema loop of
_create_connectors_for_engine, main.py lines 473-527 (Oracle) and lines
548-582 (MSSQL): look up the connector by name and reuse its id, else
create the connector (create_connector_* either raises CEError or returns
an int, so the connector_id-is-None skip at lines 517-522 is unreachable
on the create path); then create the ruleset, bulk-add the discovered
tables, and create the profile job. A raised CEError ends the iteration at
that point; a profile-job creation that returns no id only skips the job.
Returns the events produced and the CEError raised, if any. -/
def processSchema (env : String → SchemaRemote) (s : String) :
    List PEvent × Option CEErr :=
  match (match (env s).findConnector with
         | some cid => (Except.ok cid : Except CEErr Nat)
         | none => (env s).createConnector) with
  | Except.error e => ([PEvent.visited s], some e)
  | Except.ok cid =>
    match (env s).createRuleset cid with
    | Except.error e => ([PEvent.visited s, PEvent.connectorReady s cid], some e)
    | Except.ok rid =>
      match (env s).bulkAdd rid (env s).tables with
      | Except.error e =>
          ([PEvent.visited s, PEvent.connectorReady s cid,
            PEvent.rulesetCreated s rid], some e)
      | Except.ok _ =>
        match (env s).createProfileJob rid with
        | Except.error e =>
            ([PEvent.visited s, PEvent.connectorReady s cid,
              PEvent.rulesetCreated s rid,
              PEvent.tablesAdded s (env s).tables.length], some e)
        | Except.ok none =>
            ([PEvent.visited s, PEvent.connectorReady s cid,
              PEvent.rulesetCreated s rid,
              PEvent.tablesAdded s (env s).tables.length], none)
        | Except.ok (some jid) =>
            ([PEvent.visited s, PEvent.connectorReady s cid,
              PEvent.rulesetCreated s rid,
              PEvent.tablesAdded s (env s).tables.length,
              PEvent.jobCreated s jid], none)

/-- Translation of the for-schema loop of _create_connectors_for_engine
with Python exception semantics: the loop body catches nothing, so a
CEError raised in one iteration propagates out of the loop (it is caught
only by the top-level menu handler, main.py line 1042) and the remaining
schemas are not visited. Returns all events and the final outcome. -/
def runPipeline (env : String → SchemaRemote) :
    List String → List PEvent × Except CEErr Unit
  | [] => ([], Except.ok ())
  | s :: rest =>
    match processSchema env s with
    | (evs, some e) => (evs, Except.error e)
    | (evs, none) =>
      (evs ++ (runPipeline env rest).1, (runPipeline env rest).2)

/-- Concrete environment for the HR scenario: connector creation for HR
answers with a non-2xx error, every other schema provisions cleanly. -/
def envConnectorFails : String → SchemaRemote := fun s =>
  if s == "HR" then
    { findConnector := none
      createConnector := Except.error (CEErr.remote "HTTP 500 for /database-connectors")
      createRuleset := fun _ => Except.ok 0
      tables := []
      bulkAdd := fun _ _ => Except.ok ()
      createProfileJob := fun _ => Except.ok (some 0) }
  else
    { findConnector := none
      createConnector := Except.ok 101
      createRuleset := fun cid => Except.ok (cid + 1)
      tables := ["T1"]
      bulkAdd := fun _ _ => Except.ok ()
      createProfileJob := fun rid => Except.ok (some (rid + 1)) }

/-- Concrete environment where the profile-job creation returns success
without an id, the soft failure of ce_client.py lines 481-486. -/
def envJobNoId : String → SchemaRemote := fun _ =>
  { findConnector := some 7
    createConnector := Except.ok 7
    createRuleset := fun _ => Except.ok 8
    tables := ["T1"]
    bulkAdd := fun _ _ => Except.ok ()
    createProfileJob := fun _ => Except.ok none }

/-! ## Single-run scheduler entry (main.py op_run_profile_jobs) -/

/-- Failure modes of the SINGLE branch of op_run_profile_jobs. -/
inductive RunErr where
  | nameErrorUnboundJ
  | notFound (jobId : Nat)
deriving DecidableEq

/-- Translation of the SINGLE branch of op_run_profile_jobs as written,
main.py lines 819-842: an empty job list returns early (lines 820-822);
otherwise the job menu is printed by iterating
sorted(jobs, key=lambda x: int(j["profileJobId"])) at line 828, whose key
references the loop target j, a local that is still unbound when the key
first runs, so Python raises NameError for every non-empty job list before
the job-id prompt; the id check and the _run_single_profile_job call are
unreachable. Returns the outcome and the job ids passed to
StartExecution. -/
def singleRunAsWritten (jobs : List Job) (_selId : Nat) :
    Except RunErr Unit × List Nat :=
  if jobs.isEmpty then (Except.ok (), [])
  else (Except.error RunErr.nameErrorUnboundJ, [])

/-- The evidently intended SINGLE branch, with the sort key written
lambda x: int(x["profileJobId"]) as in the serial branch at main.py line
881: print the menu, read the requested id, and when no job in the
environment list carries that id, log the error and return without any
StartExecution call (main.py lines 833-839); otherwise submit the job.
The polling of the submitted execution is irrelevant to the absent-id
claim and is abstracted to the submission itself. -/
def singleRunIntended (jobs : List Job) (selId : Nat) :
    Except RunErr Unit × List Nat :=
  if jobs.isEmpty then (Except.ok (), [])
  else
    match jobs.find? (fun j => j.profileJobId == selId) with
    | none => (Except.error (RunErr.notFound selId), [])
    | some _ => (Except.ok (), [selId])

/-! ## Authorization guard of the remote client (ce_client.py)

Every authenticated operation goes through CEClient._request, which builds
the headers via CEClient._headers before the HTTP round trip, or passes
self._headers() directly to session.delete; _headers raises CEError when
self.auth_token is unset. The remote endpoints are abstracted by a
RemoteApi record, and each operation returns its result together with the
list of HTTP requests that were actually sent: an empty list means the
remote was never contacted, hence its state is unchanged. -/

/-- Python truthiness of self.auth_token in CEClient._headers, ce_client.py
lines 46-48: None and the empty string count as unset. -/
def tokenSet : Option String → Bool
  | none => false
  | some s => !(s == "")

/-- An HTTP request as sent by CEClient._request or session.delete. -/
structure HttpReq where
  method : String
  path : String
deriving DecidableEq

/-- Responses of the remote endpoints, one field per endpoint the client
operations use. -/
structure RemoteApi where
  listApplications : Except CEErr (List CEApp)
  createApplication : String → Except CEErr Nat
  listEnvironments : Nat → Except CEErr (List (Nat × String))
  createEnvironment : Nat → String → Except CEErr Nat
  listConnectors : Nat → Except CEErr (List (Nat × String))
  createConnector : String → String → Nat → Except CEErr Nat
  createRuleset : Nat → String → Except CEErr Nat
  createProfileJob : Nat → String → Nat → Except CEErr (Option Nat)
  listProfileSets : Except CEErr (List (Nat × String))
  listProfileJobs : Nat → Except CEErr (List Job)
  startExecution : Nat → Except CEErr Nat
  getExecutionStatus : Nat → Except CEErr String
  deleteApplication : Nat → Except CEErr Unit
  deleteEnvironment : Nat → Except CEErr Unit

/-- Translation of CEClient._request, ce_client.py lines 55-94 (and of the
direct session.delete calls whose headers argument evaluates
self._headers() first): the token check of _headers runs before anything
is sent; only if it passes is the request issued and the remote response
returned. -/
def guardedCall {α : Type} (token : Option String) (req : HttpReq)
    (response : Except CEErr α) : Except CEErr α × List HttpReq :=
  if tokenSet token then (response, [req])
  else (Except.error CEErr.noToken, [])

/-- CEClient.list_applications, ce_client.py lines 248-263. -/
def opListApplications (t : Option String) (api : RemoteApi) :
    Except CEErr (List CEApp) × List HttpReq :=
  guardedCall t ⟨"GET", "/applications"⟩ api.listApplications

/-- CEClient.ensure_application, ce_client.py lines 138-154: list, return
the first exact name match, else create. -/
def opEnsureApplication (t : Option String) (api : RemoteApi) (name : String) :
    Except CEErr Nat × List HttpReq :=
  match opListApplications t api with
  | (Except.error e, reqs) => (Except.error e, reqs)
  | (Except.ok apps, reqs) =>
    match (List.insertionSort (fun a b => a.applicationId ≤ b.applicationId)
        apps).find? (fun a => a.applicationName == name) with
    | some a => (Except.ok a.applicationId, reqs)
    | none =>
      match guardedCall t ⟨"POST", "/applications"⟩ (api.createApplication name) with
      | (r, reqs2) => (r, reqs ++ reqs2)

/-- CEClient.list_environments_for_app, ce_client.py lines 180-187. -/
def opListEnvironments (t : Option String) (api : RemoteApi) (appId : Nat) :
    Except CEErr (List (Nat × String)) × List HttpReq :=
  guardedCall t ⟨"GET", "/environments"⟩ (api.listEnvironments appId)

/-- CEClient.ensure_environment, ce_client.py lines 189-209. -/
def opEnsureEnvironment (t : Option String) (api : RemoteApi) (appId : Nat)
    (envName : String) : Except CEErr Nat × List HttpReq :=
  match opListEnvironments t api appId with
  | (Except.error e, reqs) => (Except.error e, reqs)
  | (Except.ok envs, reqs) =>
    match envs.find? (fun e => e.2 == envName) with
    | some e => (Except.ok e.1, reqs)
    | none =>
      match guardedCall t ⟨"POST", "/environments"⟩
          (api.createEnvironment appId envName) with
      | (r, reqs2) => (r, reqs ++ reqs2)

/-- CEClient.list_connectors_for_env, ce_client.py lines 275-282. -/
def opListConnectors (t : Option String) (api : RemoteApi) (envId : Nat) :
    Except CEErr (List (Nat × String)) × List HttpReq :=
  guardedCall t ⟨"GET", "/database-connectors"⟩ (api.listConnectors envId)

/-- CEClient.find_connector_by_name, ce_client.py lines 284-289. -/
def opFindConnectorByName (t : Option String) (api : RemoteApi) (envId : Nat)
    (name : String) : Except CEErr (Option Nat) × List HttpReq :=
  match opListConnectors t api envId with
  | (Except.error e, reqs) => (Except.error e, reqs)
  | (Except.ok conns, reqs) =>
    ((Except.ok ((conns.find? (fun c => c.2 == name)).map (fun c => c.1))), reqs)

/-- The four create_connector_* operations, ce_client.py lines 291-418,
which differ only in the payload; all POST /database-connectors through
_request. -/
def opCreateConnector (t : Option String) (api : RemoteApi)
    (dbType name : String) (envId : Nat) : Except CEErr Nat × List HttpReq :=
  guardedCall t ⟨"POST", "/database-connectors"⟩
    (api.createConnector dbType name envId)

/-- CEClient.create_ruleset, ce_client.py lines 422-436. -/
def opCreateRuleset (t : Option String) (api : RemoteApi) (connectorId : Nat)
    (schema : String) : Except CEErr Nat × List HttpReq :=
  guardedCall t ⟨"POST", "/database-rulesets"⟩
    (api.createRuleset connectorId schema)

/-- CEClient.create_profile_job, ce_client.py lines 463-488. -/
def opCreateProfileJob (t : Option String) (api : RemoteApi) (rulesetId : Nat)
    (schema : String) (profileSetId : Nat) :
    Except CEErr (Option Nat) × List HttpReq :=
  guardedCall t ⟨"POST", "/profile-jobs"⟩
    (api.createProfileJob rulesetId schema profileSetId)

/-- CEClient.list_profile_sets, ce_client.py lines 268-271. -/
def opListProfileSets (t : Option String) (api : RemoteApi) :
    Except CEErr (List (Nat × String)) × List HttpReq :=
  guardedCall t ⟨"GET", "/profile-sets"⟩ api.listProfileSets

/-- CEClient.list_profile_jobs_for_env, ce_client.py lines 490-497. -/
def opListProfileJobs (t : Option String) (api : RemoteApi) (envId : Nat) :
    Except CEErr (List Job) × List HttpReq :=
  guardedCall t ⟨"GET", "/profile-jobs"⟩ (api.listProfileJobs envId)

/-- CEClient.start_profile_execution, ce_client.py lines 499-510. -/
def opStartExecution (t : Option String) (api : RemoteApi) (jobId : Nat) :
    Except CEErr Nat × List HttpReq :=
  guardedCall t ⟨"POST", "/executions"⟩ (api.startExecution jobId)

/-- CEClient.get_execution_status, ce_client.py lines 512-516. -/
def opGetExecutionStatus (t : Option String) (api : RemoteApi) (execId : Nat) :
    Except CEErr String × List HttpReq :=
  guardedCall t ⟨"GET", "/executions/id"⟩ (api.getExecutionStatus execId)

/-- CEClient.delete_application, ce_client.py lines 156-176: session.delete
with headers evaluated by self._headers() before the call. -/
def opDeleteApplication (t : Option String) (api : RemoteApi) (appId : Nat) :
    Except CEErr Unit × List HttpReq :=
  guardedCall t ⟨"DELETE", "/applications/id"⟩ (api.deleteApplication appId)

/-- CEClient.delete_environment, ce_client.py lines 211-231. -/
def opDeleteEnvironment (t : Option String) (api : RemoteApi) (envId : Nat) :
    Except CEErr Unit × List HttpReq :=
  guardedCall t ⟨"DELETE", "/environments/id"⟩ (api.deleteEnvironment envId)

/-- A concrete stub remote used by witnesses. -/
def apiStub : RemoteApi :=
  { listApplications := Except.ok []
    createApplication := fun _ => Except.ok 1
    listEnvironments := fun _ => Except.ok []
    createEnvironment := fun _ _ => Except.ok 2
    listConnectors := fun _ => Except.ok []
    createConnector := fun _ _ _ => Except.ok 3
    createRuleset := fun _ _ => Except.ok 4
    createProfileJob := fun _ _ _ => Except.ok (some 5)
    listProfileSets := Except.ok []
    listProfileJobs := fun _ => Except.ok []
    startExecution := fun _ => Except.ok 6
    getExecutionStatus := fun _ => Except.ok "RUNNING"
    deleteApplication := fun _ => Except.ok ()
    deleteEnvironment := fun _ => Except.ok () }

/-! ## Theorems -/

/-- C4: Oracle introspector construction fails with a configuration error
exactly when both SID and SERVICE_NAME are set or when neither is set; the
check happens before any connection attempt (no attempt is made and the
outcome does not depend on the connect result); with exactly one of them
set, construction raises no configuration error. -/
theorem oracleInit_configError_iff (sid svc : Option String) (ok : Bool) :
    (isConfigError (oracleInit sid svc ok).1 = true ↔
      ((pyTruthy sid = true ∧ pyTruthy svc = true) ∨
       (pyTruthy sid = false ∧ pyTruthy svc = false)))
    ∧ (isConfigError (oracleInit sid svc ok).1 = true →
        (oracleInit sid svc ok).2 = 0 ∧
        oracleInit sid svc true = oracleInit sid svc false)
    ∧ (pyTruthy sid ≠ pyTruthy svc →
        isConfigError (oracleInit sid svc ok).1 = false) := by
  cases hs : pyTruthy sid <;> cases hv : pyTruthy svc <;> cases ok <;>
    simp [oracleInit, isConfigError, hs, hv]

/-- Witness for C4 at concrete inputs: both set yields a configuration
error with no connection attempt; only SID set yields none. -/
theorem oracleInit_configError_iff_witness :
    isConfigError (oracleInit (some "ORCL") (some "SVC") true).1 = true
    ∧ (oracleInit (some "ORCL") (some "SVC") true).2 = 0
    ∧ isConfigError (oracleInit (some "ORCL") none true).1 = false := by
  refine ⟨?_, ?_, ?_⟩
  · exact (oracleInit_configError_iff (some "ORCL") (some "SVC") true).1.mpr
      (Or.inl (by decide))
  · exact ((oracleInit_configError_iff (some "ORCL") (some "SVC") true).2.1
      ((oracleInit_configError_iff (some "ORCL") (some "SVC") true).1.mpr
        (Or.inl (by decide)))).1
  · exact (oracleInit_configError_iff (some "ORCL") none true).2.2 (by decide)

/-- C7: every schema-introspection variant returns a list free of that
engine's system-schema denylist (Oracle: the fixed denylist set; MSSQL: sys
and INFORMATION_SCHEMA; Postgres: names matching pg_% and
information_schema) and lexicographically sorted ascending, for every
catalog state. -/
theorem listSchemas_denylist_sorted (oc mc pc : List String) :
    ((∀ n ∈ oracleListSchemas oc, n ∉ oracleSystemSchemas)
      ∧ List.Sorted strLeP (oracleListSchemas oc))
    ∧ ((∀ n ∈ mssqlListSchemas mc, n ≠ "sys" ∧ n ≠ "INFORMATION_SCHEMA")
      ∧ List.Sorted strLeP (mssqlListSchemas mc))
    ∧ ((∀ n ∈ postgresListSchemas pc,
          matchesPgPattern n = false ∧ n ≠ "information_schema")
      ∧ List.Sorted strLeP (postgresListSchemas pc)) := by
  refine ⟨⟨?_, ?_⟩, ⟨?_, ?_⟩, ⟨?_, ?_⟩⟩
  · intro n hn
    have h := (List.mem_filter.mp hn).2
    simpa using h
  · exact List.Pairwise.filter _
      (List.sorted_insertionSort strLeP oc.dedup)
  · intro n hn
    have h := (List.mem_filter.mp
      ((List.perm_insertionSort strLeP _).mem_iff.mp hn)).2
    simp only [Bool.and_eq_true, Bool.not_eq_true'] at h
    exact ⟨by simpa using h.1, by simpa using h.2⟩
  · exact List.sorted_insertionSort strLeP _
  · intro n hn
    have h := (List.mem_filter.mp
      ((List.perm_insertionSort strLeP _).mem_iff.mp hn)).2
    simp only [Bool.and_eq_true, Bool.not_eq_true'] at h
    exact ⟨h.1, by simpa using h.2⟩
  · exact List.sorted_insertionSort strLeP _

/-- Witness for C7 at a concrete catalog: APPDATA survives the Oracle
filter and is not denylisted, and the returned list is sorted. -/
theorem listSchemas_denylist_sorted_witness :
    "APPDATA" ∉ oracleSystemSchemas
    ∧ List.Sorted strLeP (oracleListSchemas ["ZAPP", "SYS", "APPDATA"]) := by
  have h := listSchemas_denylist_sorted ["ZAPP", "SYS", "APPDATA"] [] []
  exact ⟨h.1.1 "APPDATA" (by decide), h.1.2⟩

/-- C8: with an empty table list the bulk table update issues no remote
request and returns normally; with a non-empty list it issues exactly one
batched request containing one tableMetadata entry per table name. -/
theorem bulkAdd_empty_noop_nonempty_single (rid : Nat) (tables : List String) :
    (tables = [] → bulkAddTablesToRuleset rid tables = [])
    ∧ (tables ≠ [] →
        (bulkAddTablesToRuleset rid tables).length = 1
        ∧ ∀ req ∈ bulkAddTablesToRuleset rid tables,
            req.entries = tables.map (fun t => (t, rid))
            ∧ req.entries.length = tables.length) := by
  constructor
  · intro h; simp [bulkAddTablesToRuleset, h]
  · intro h
    have hne : tables.isEmpty = false := by
      cases tables with
      | nil => exact absurd rfl h
      | cons a l => rfl
    refine ⟨by simp [bulkAddTablesToRuleset, hne], ?_⟩
    intro req hreq
    simp only [bulkAddTablesToRuleset, hne, Bool.false_eq_true, if_false,
      List.mem_singleton] at hreq
    subst hreq
    simp

/-- Witness for C8 at concrete inputs: empty list sends nothing; a two-table
list sends exactly one request. -/
theorem bulkAdd_empty_noop_nonempty_single_witness :
    bulkAddTablesToRuleset 7 [] = []
    ∧ (bulkAddTablesToRuleset 7 ["T1", "T2"]).length = 1 := by
  refine ⟨(bulkAdd_empty_noop_nonempty_single 7 []).1 rfl, ?_⟩
  exact ((bulkAdd_empty_noop_nonempty_single 7 ["T1", "T2"]).2 (by decide)).1

/-- C9 counterexample: the claim that every introspector variant performs
connect, query, close inside each discovery call fails on the Oracle
variant, whose ListSchemas call opens no connection and closes none; the
single connection is opened at construction instead. -/
theorem oracle_discovery_not_short_lived :
    shortLivedCall oracleListSchemasEvents = false
    ∧ shortLivedCall oracleListTablesEvents = false
    ∧ oracleInitEvents = [DBEvent.connect] := by
  exact ⟨rfl, rfl, rfl⟩

/-- C9 amended: the MSSQL, Postgres and MySQL variants open one short-lived
connection per discovery call (connect, then the query, then close in a
finally block); the Oracle variant instead opens a single connection at
construction, its discovery calls only query that stored connection, and
the connection is closed only by an explicit close call, which the
provisioning pipeline never issues. -/
theorem introspector_connection_lifecycle :
    shortLivedCall mssqlListSchemasEvents = true
    ∧ shortLivedCall mssqlListTablesEvents = true
    ∧ shortLivedCall postgresListSchemasEvents = true
    ∧ shortLivedCall postgresListTablesEvents = true
    ∧ shortLivedCall mysqlListTablesEvents = true
    ∧ oracleInitEvents = [DBEvent.connect]
    ∧ queryOnly oracleListSchemasEvents = true
    ∧ queryOnly oracleListTablesEvents = true
    ∧ oracleCloseEvents = [DBEvent.close] := by
  exact ⟨rfl, rfl, rfl, rfl, rfl, rfl, rfl, rfl, rfl⟩

/-- C3: ensure_application is idempotent. If an application with exactly
the requested name already exists (the lookup is a case-sensitive exact
string match), the call returns the id of the first such application in
the id-sorted listing, leaves the remote state unchanged and issues no
create request. Calling it twice with the same name returns the same id
both times, and the total number of create requests over the two calls is
one when the name was initially absent and zero when it was present. -/
theorem ensureApplication_idempotent (st : CEAppState) (name : String) :
    (∀ app,
        (listApplicationsSorted st).find? (fun a => a.applicationName == name)
          = some app →
        ensureApplication st name
          = { id := app.applicationId, state := st, creates := 0 })
    ∧ (ensureApplication (ensureApplication st name).state name).id
        = (ensureApplication st name).id
    ∧ (ensureApplication st name).creates
        + (ensureApplication (ensureApplication st name).state name).creates
      = (if st.apps.any (fun a => a.applicationName == name) then 0 else 1) := by
  have perm := List.perm_insertionSort
    (fun a b : CEApp => a.applicationId ≤ b.applicationId) st.apps
  refine ⟨?_, ?_⟩
  · intro app happ
    simp [ensureApplication, happ]
  · cases hfind : (listApplicationsSorted st).find?
      (fun a => a.applicationName == name) with
    | some app =>
      have hmem : app ∈ st.apps :=
        perm.mem_iff.mp (List.mem_of_find?_eq_some hfind)
      have hpred := List.find?_some hfind
      have hany : st.apps.any (fun a => a.applicationName == name) = true :=
        List.any_eq_true.mpr ⟨app, hmem, hpred⟩
      constructor
      · simp [ensureApplication, hfind]
      · simp [ensureApplication, hfind, hany]
    | none =>
      have hnone : ∀ a ∈ st.apps, ¬ (a.applicationName == name) = true := by
        intro a ha
        exact List.find?_eq_none.mp hfind a (perm.mem_iff.mpr ha)
      have hany : st.apps.any (fun a => a.applicationName == name) = false := by
        rw [List.any_eq_false]
        exact hnone
      -- after the create, the state holds exactly one application with the
      -- requested name, the fresh one
      set newApp : CEApp := { applicationId := st.nextId, applicationName := name }
      set st' : CEAppState :=
        { apps := st.apps ++ [newApp], nextId := st.nextId + 1 }
      have hr1 : ensureApplication st name =
          { id := st.nextId, state := st', creates := 1 } := by
        simp [ensureApplication, hfind, st', newApp]
      have perm' := List.perm_insertionSort
        (fun a b : CEApp => a.applicationId ≤ b.applicationId) st'.apps
      have hsome : ∀ app,
          (listApplicationsSorted st').find? (fun a => a.applicationName == name)
            = some app → app = newApp := by
        intro app happ
        have hmem : app ∈ st.apps ++ [newApp] :=
          perm'.mem_iff.mp (List.mem_of_find?_eq_some happ)
        have hpred := List.find?_some happ
        rcases List.mem_append.mp hmem with h | h
        · exact absurd hpred (hnone app h)
        · simpa using h
      have hexists : ((listApplicationsSorted st').find?
          (fun a => a.applicationName == name)).isSome = true := by
        rw [List.find?_isSome]
        refine ⟨newApp, ?_, by simp [newApp]⟩
        exact perm'.mem_iff.mpr (List.mem_append.mpr (Or.inr (by simp)))
      cases hfind' : (listApplicationsSorted st').find?
          (fun a => a.applicationName == name) with
      | none => rw [hfind'] at hexists; simp at hexists
      | some app =>
        have happ : app = newApp := hsome app hfind'
        constructor
        · rw [hr1]
          simp [ensureApplication, hfind', happ, newApp]
        · rw [hr1]
          simp [ensureApplication, hfind', hany]

/-- Witness for C3 at concrete inputs: a pre-existing application APP with
id 42 is returned unchanged with no create, and a fresh name from the
empty state gets the same id on both calls with exactly one create in
total. -/
theorem ensureApplication_idempotent_witness :
    ensureApplication ⟨[⟨42, "APP"⟩], 43⟩ "APP" = ⟨42, ⟨[⟨42, "APP"⟩], 43⟩, 0⟩
    ∧ (ensureApplication (ensureApplication ⟨[], 0⟩ "HR").state "HR").id
        = (ensureApplication ⟨[], 0⟩ "HR").id
    ∧ (ensureApplication ⟨[], 0⟩ "HR").creates
        + (ensureApplication (ensureApplication ⟨[], 0⟩ "HR").state "HR").creates
      = 1 := by
  refine ⟨?_, ?_, ?_⟩
  · exact (ensureApplication_idempotent ⟨[⟨42, "APP"⟩], 43⟩ "APP").1
      ⟨42, "APP"⟩ (by decide)
  · exact (ensureApplication_idempotent ⟨[], 0⟩ "HR").2.1
  · have h := (ensureApplication_idempotent ⟨[], 0⟩ "HR").2.2
    simpa using h

/-- Helper: the submission loop never grows the running list past
maxParallel, at the final state and at every intermediate snapshot. -/
theorem fillAux_running_le (maxP : Nat) (startO : Nat → Nat) :
    ∀ pend running subs, running.length ≤ maxP →
      (fillAux maxP startO pend running subs).1.running.length ≤ maxP
      ∧ ∀ s ∈ (fillAux maxP startO pend running subs).2,
          s.running.length ≤ maxP := by
  intro pend
  induction pend with
  | nil => intro running subs h; exact ⟨h, by simp [fillAux]⟩
  | cons j rest ih =>
    intro running subs h
    by_cases hlt : running.length < maxP
    · have h' : (running ++ [(j.profileJobId, startO subs.length)]).length ≤ maxP := by
        simp only [List.length_append, List.length_singleton]
        omega
      have hr := ih (running ++ [(j.profileJobId, startO subs.length)])
        (subs ++ [j.profileJobId]) h'
      constructor
      · simpa [fillAux, hlt] using hr.1
      · intro s hs
        simp only [fillAux, if_pos hlt, List.mem_cons] at hs
        rcases hs with hs | hs
        · subst hs; exact h'
        · exact hr.2 s hs
    · exact ⟨by simpa [fillAux, hlt] using h, by simp [fillAux, hlt]⟩

/-- Helper: polling only removes running entries. -/
theorem pollRunning_length_le (statusO : Nat → Nat → String) (pollRound : Nat)
    (st : PScheduler) :
    (pollRunning statusO pollRound st).running.length ≤ st.running.length :=
  List.length_filter_le _ _

/-- Helper: polling does not touch the pending queue or the submission
log. -/
theorem pollRunning_pend_subs (statusO : Nat → Nat → String) (pollRound : Nat)
    (st : PScheduler) :
    (pollRunning statusO pollRound st).pend = st.pend
    ∧ (pollRunning statusO pollRound st).subs = st.subs :=
  ⟨rfl, rfl⟩

/-- Helper: the running-list bound is an invariant of the whole
submit-and-poll loop. -/
theorem parallelLoop_running_le (maxP : Nat) (startO : Nat → Nat)
    (statusO : Nat → Nat → String) :
    ∀ fuel pollRound st, st.running.length ≤ maxP →
      (parallelLoop maxP startO statusO fuel pollRound st).1.running.length ≤ maxP
      ∧ ∀ s ∈ (parallelLoop maxP startO statusO fuel pollRound st).2,
          s.running.length ≤ maxP := by
  intro fuel
  induction fuel with
  | zero => intro pollRound st h; exact ⟨h, by simp [parallelLoop]⟩
  | succ fuel ih =>
    intro pollRound st h
    by_cases hcond : st.pend ≠ [] ∨ st.running ≠ []
    · have hfill := fillAux_running_le maxP startO st.pend st.running st.subs h
      have hpoll : (pollRunning statusO pollRound
          (fillAux maxP startO st.pend st.running st.subs).1).running.length ≤ maxP :=
        le_trans (pollRunning_length_le _ _ _) hfill.1
      have hrest := ih (pollRound + 1)
        (pollRunning statusO pollRound
          (fillAux maxP startO st.pend st.running st.subs).1) hpoll
      by_cases hemp :
          (fillAux maxP startO st.pend st.running st.subs).1.running.isEmpty = true
      · constructor
        · simpa [parallelLoop, hcond, hemp] using hfill.1
        · intro s hs
          simp only [parallelLoop, if_pos hcond, hemp, if_pos] at hs
          exact hfill.2 s hs
      · have hemp' := Bool.not_eq_true _ ▸ hemp
        constructor
        · simp only [parallelLoop, if_pos hcond]
          rw [if_neg hemp]
          exact hrest.1
        · intro s hs
          simp only [parallelLoop, if_pos hcond] at hs
          rw [if_neg hemp] at hs
          rcases List.mem_append.mp hs with hs | hs
          · exact hfill.2 s hs
          · rcases List.mem_cons.mp hs with hs | hs
            · subst hs; exact hpoll
            · exact hrest.2 s hs
    · exact ⟨by simpa [parallelLoop, hcond] using h, by simp [parallelLoop, hcond]⟩

/-- Helper: the submitted ids followed by the ids still pending are
exactly the full sorted id sequence; the submission loop preserves this. -/
theorem fillAux_subs_inv (maxP : Nat) (startO : Nat → Nat) (L : List Nat) :
    ∀ pend running subs,
      subs ++ pend.map (fun j => j.profileJobId) = L →
      ((fillAux maxP startO pend running subs).1.subs
          ++ (fillAux maxP startO pend running subs).1.pend.map
              (fun j => j.profileJobId) = L)
      ∧ ∀ s ∈ (fillAux maxP startO pend running subs).2,
          s.subs ++ s.pend.map (fun j => j.profileJobId) = L := by
  intro pend
  induction pend with
  | nil => intro running subs h; exact ⟨by simpa [fillAux] using h, by simp [fillAux]⟩
  | cons j rest ih =>
    intro running subs h
    by_cases hlt : running.length < maxP
    · have h' : (subs ++ [j.profileJobId]) ++ rest.map (fun j => j.profileJobId) = L := by
        simpa using h
      have hr := ih (running ++ [(j.profileJobId, startO subs.length)])
        (subs ++ [j.profileJobId]) h'
      constructor
      · simpa [fillAux, hlt] using hr.1
      · intro s hs
        simp only [fillAux, if_pos hlt, List.mem_cons] at hs
        rcases hs with hs | hs
        · subst hs; exact h'
        · exact hr.2 s hs
    · exact ⟨by simpa [fillAux, hlt] using h, by simp [fillAux, hlt]⟩

/-- Helper: the submitted-plus-pending id invariant holds through the
whole submit-and-poll loop. -/
theorem parallelLoop_subs_inv (maxP : Nat) (startO : Nat → Nat)
    (statusO : Nat → Nat → String) (L : List Nat) :
    ∀ fuel pollRound st,
      st.subs ++ st.pend.map (fun j => j.profileJobId) = L →
      (parallelLoop maxP startO statusO fuel pollRound st).1.subs
          ++ (parallelLoop maxP startO statusO fuel pollRound st).1.pend.map
              (fun j => j.profileJobId) = L := by
  intro fuel
  induction fuel with
  | zero => intro pollRound st h; simpa [parallelLoop] using h
  | succ fuel ih =>
    intro pollRound st h
    by_cases hcond : st.pend ≠ [] ∨ st.running ≠ []
    · have hfill := fillAux_subs_inv maxP startO L st.pend st.running st.subs h
      have hpoll : (pollRunning statusO pollRound
              (fillAux maxP startO st.pend st.running st.subs).1).subs
            ++ (pollRunning statusO pollRound
              (fillAux maxP startO st.pend st.running st.subs).1).pend.map
                (fun j => j.profileJobId) = L := by
        simpa [pollRunning] using hfill.1
      by_cases hemp :
          (fillAux maxP startO st.pend st.running st.subs).1.running.isEmpty = true
      · simpa [parallelLoop, hcond, hemp] using hfill.1
      · have hrest := ih (pollRound + 1)
          (pollRunning statusO pollRound
            (fillAux maxP startO st.pend st.running st.subs).1) hpoll
        simp only [parallelLoop, if_pos hcond]
        rw [if_neg hemp]
        exact hrest
    · simpa [parallelLoop, hcond] using h

/-- Helper: the id sequence of the sorted job list is non-decreasing. -/
theorem sortJobs_map_sorted (jobs : List Job) :
    List.Sorted (· ≤ ·) ((sortJobs jobs).map (fun j => j.profileJobId)) := by
  have h := List.sorted_insertionSort
    (fun a b : Job => a.profileJobId ≤ b.profileJobId) jobs
  exact List.Pairwise.map _ (fun _ _ hab => hab) h

/-- Helper: a non-decreasing duplicate-free list of naturals is strictly
increasing. -/
theorem sorted_lt_of_sorted_le_nodup {l : List Nat}
    (h1 : List.Sorted (· ≤ ·) l) (h2 : l.Nodup) :
    List.Sorted (· < ·) l := by
  induction l with
  | nil => simp
  | cons a t ih =>
    rw [List.sorted_cons] at h1 ⊢
    rw [List.nodup_cons] at h2
    refine ⟨fun b hb => lt_of_le_of_ne (h1.1 b hb) ?_, ih h1.2 h2.2⟩
    rintro rfl
    exact h2.1 hb

/-- Helper: the serial mode submits a prefix of the sorted id sequence. -/
theorem runSerialSubs_append_eq (statusO : Nat → Nat → String)
    (startO : Nat → Nat) (fuel : Nat) :
    ∀ l n, ∃ t, runSerialSubs statusO startO fuel l n ++ t
        = l.map (fun j => j.profileJobId) := by
  intro l
  induction l with
  | nil => intro n; exact ⟨[], rfl⟩
  | cons j rest ih =>
    intro n
    by_cases hr : reachesTerminal statusO (startO n) fuel = true
    · obtain ⟨t, ht⟩ := ih (n + 1)
      exact ⟨t, by simp [runSerialSubs, hr, ht]⟩
    · refine ⟨rest.map (fun j => j.profileJobId), ?_⟩
      have hr' := Bool.not_eq_true _ ▸ hr
      simp [runSerialSubs, hr]

/-- C2: at every point of the bounded-parallel scheduler loop (after each
single submission and after each polling pass, as well as at the final
state) the number of submitted executions not yet observed terminal is at
most max(maxParallel, 1); and a maxParallel of at most zero behaves
exactly as maxParallel equal to one. -/
theorem parallel_running_bounded (jobs : List Job) (maxParallel : Int)
    (startO : Nat → Nat) (statusO : Nat → Nat → String) (fuel : Nat) :
    (∀ s ∈ (runProfileJobsParallel jobs maxParallel startO statusO fuel).2,
        (s.running.length : Int) ≤ max maxParallel 1)
    ∧ ((runProfileJobsParallel jobs maxParallel startO statusO fuel).1.running.length : Int)
        ≤ max maxParallel 1
    ∧ (maxParallel ≤ 0 →
        runProfileJobsParallel jobs maxParallel startO statusO fuel
          = runProfileJobsParallel jobs 1 startO statusO fuel) := by
  have hclamp : ((if maxParallel ≤ 0 then 1 else maxParallel.toNat : Nat) : Int)
      = max maxParallel 1 := by
    by_cases h : maxParallel ≤ 0
    · rw [if_pos h, max_eq_right (le_trans h (by norm_num))]
      rfl
    · push_neg at h
      rw [if_neg (not_le.mpr h), max_eq_left (by omega), Int.toNat_of_nonneg (by omega)]
  have hinv := parallelLoop_running_le
    (if maxParallel ≤ 0 then 1 else maxParallel.toNat) startO statusO fuel 0
    ⟨sortJobs jobs, [], []⟩ (by simp)
  refine ⟨?_, ?_, ?_⟩
  · intro s hs
    have hmem : s ∈ (parallelLoop
        (if maxParallel ≤ 0 then 1 else maxParallel.toNat) startO statusO fuel 0
        ⟨sortJobs jobs, [], []⟩).2 := by
      simpa [runProfileJobsParallel] using hs
    have := hinv.2 s hmem
    rw [← hclamp]
    exact_mod_cast this
  · have h1 : (runProfileJobsParallel jobs maxParallel startO statusO fuel).1
        = (parallelLoop (if maxParallel ≤ 0 then 1 else maxParallel.toNat)
            startO statusO fuel 0 ⟨sortJobs jobs, [], []⟩).1 := by
      simp [runProfileJobsParallel]
    rw [h1, ← hclamp]
    exact_mod_cast hinv.1
  · intro h
    simp [runProfileJobsParallel, h]

/-- Witness for C2 at concrete inputs: three jobs with maxParallel 2 stay
within the bound, and maxParallel -2 runs exactly as maxParallel 1. -/
theorem parallel_running_bounded_witness :
    ((runProfileJobsParallel [⟨5, "A"⟩, ⟨3, "B"⟩, ⟨9, "C"⟩] 2 (fun n => n)
        (fun _ _ => "SUCCEEDED") 4).1.running.length : Int) ≤ max 2 1
    ∧ runProfileJobsParallel [⟨5, "A"⟩] (-2) (fun n => n) (fun _ _ => "RUNNING") 2
        = runProfileJobsParallel [⟨5, "A"⟩] 1 (fun n => n) (fun _ _ => "RUNNING") 2 := by
  refine ⟨?_, ?_⟩
  · exact (parallel_running_bounded [⟨5, "A"⟩, ⟨3, "B"⟩, ⟨9, "C"⟩] 2 (fun n => n)
      (fun _ _ => "SUCCEEDED") 4).2.1
  · exact (parallel_running_bounded [⟨5, "A"⟩] (-2) (fun n => n)
      (fun _ _ => "RUNNING") 2).2.2 (by decide)

/-- C5 counterexample: with two jobs sharing profile-job id 3 the
submission sequence is 3,3 in both the serial and the bounded-parallel
mode, which is not strictly ascending, so the claim as stated fails for
job lists with duplicate ids. -/
theorem submissions_strict_counterexample :
    runProfileJobsSerial [⟨3, "A"⟩, ⟨3, "B"⟩] (fun n => n)
        (fun _ _ => "SUCCEEDED") 4 = [3, 3]
    ∧ (runProfileJobsParallel [⟨3, "A"⟩, ⟨3, "B"⟩] 2 (fun n => n)
        (fun _ _ => "SUCCEEDED") 4).1.subs = [3, 3]
    ∧ ¬ List.Sorted (· < ·) ([3, 3] : List Nat) := by
  refine ⟨by decide, by decide, by decide⟩

/-- C5 amended: in both the batch-serial and the batch-bounded-parallel
mode the sequence of StartExecution calls is ordered by non-decreasing
profile-job id, independent of the input order, of maxParallel, of the
execution ids the remote assigns and of when jobs complete; when the
profile-job ids are pairwise distinct the sequence is strictly
ascending. -/
theorem submissions_ascending (jobs : List Job) (maxParallel : Int)
    (startO : Nat → Nat) (statusO : Nat → Nat → String) (fuel : Nat) :
    List.Sorted (· ≤ ·)
      (runProfileJobsParallel jobs maxParallel startO statusO fuel).1.subs
    ∧ List.Sorted (· ≤ ·) (runProfileJobsSerial jobs startO statusO fuel)
    ∧ ((jobs.map (fun j => j.profileJobId)).Nodup →
        List.Sorted (· < ·)
          (runProfileJobsParallel jobs maxParallel startO statusO fuel).1.subs
        ∧ List.Sorted (· < ·) (runProfileJobsSerial jobs startO statusO fuel)) := by
  have hL := sortJobs_map_sorted jobs
  -- the parallel submissions are a sublist of the sorted id sequence
  have hpar : List.Sublist
      (runProfileJobsParallel jobs maxParallel startO statusO fuel).1.subs
      ((sortJobs jobs).map (fun j => j.profileJobId)) := by
    have hinv := parallelLoop_subs_inv
      (if maxParallel ≤ 0 then 1 else maxParallel.toNat) startO statusO
      ((sortJobs jobs).map (fun j => j.profileJobId)) fuel 0
      ⟨sortJobs jobs, [], []⟩ (by simp)
    have h1 : (runProfileJobsParallel jobs maxParallel startO statusO fuel).1
        = (parallelLoop (if maxParallel ≤ 0 then 1 else maxParallel.toNat)
            startO statusO fuel 0 ⟨sortJobs jobs, [], []⟩).1 := by
      simp [runProfileJobsParallel]
    rw [h1]
    exact hinv ▸ List.sublist_append_left _ _
  -- the serial submissions are a sublist of the sorted id sequence
  have hser : List.Sublist (runProfileJobsSerial jobs startO statusO fuel)
      ((sortJobs jobs).map (fun j => j.profileJobId)) := by
    obtain ⟨t, ht⟩ := runSerialSubs_append_eq statusO startO fuel (sortJobs jobs) 0
    exact ht ▸ List.sublist_append_left _ _
  refine ⟨List.Pairwise.sublist hpar hL, List.Pairwise.sublist hser hL, ?_⟩
  intro hnd
  have hmapnd : ((sortJobs jobs).map (fun j => j.profileJobId)).Nodup := by
    have hperm := (List.perm_insertionSort
      (fun a b : Job => a.profileJobId ≤ b.profileJobId) jobs).map
      (fun j => j.profileJobId)
    exact (List.Perm.nodup_iff hperm).mpr hnd
  exact ⟨sorted_lt_of_sorted_le_nodup (List.Pairwise.sublist hpar hL)
      (List.Nodup.sublist hpar hmapnd),
    sorted_lt_of_sorted_le_nodup (List.Pairwise.sublist hser hL)
      (List.Nodup.sublist hser hmapnd)⟩

/-- Witness for C5 at the concrete scenario of the design document: jobs
with ids 5, 3, 9 and distinct ids are submitted strictly ascending as
3, 5, 9 in serial mode. -/
theorem submissions_ascending_witness :
    runProfileJobsSerial [⟨5, "A"⟩, ⟨3, "B"⟩, ⟨9, "C"⟩] (fun n => n)
        (fun _ _ => "SUCCEEDED") 4 = [3, 5, 9]
    ∧ List.Sorted (· < ·) (runProfileJobsSerial [⟨5, "A"⟩, ⟨3, "B"⟩, ⟨9, "C"⟩]
        (fun n => n) (fun _ _ => "SUCCEEDED") 4) := by
  refine ⟨by decide, ?_⟩
  exact ((submissions_ascending [⟨5, "A"⟩, ⟨3, "B"⟩, ⟨9, "C"⟩] 2 (fun n => n)
    (fun _ _ => "SUCCEEDED") 4).2.2 (by decide)).2

/-- C1 counterexample: with the schema list HR, X where connector creation
for HR answers a non-2xx error, the raised CEError aborts the whole run:
the only event is the start of the HR iteration, the run ends with the
error, and X is never visited — contrary to the claim that every later
schema is still processed. (No ruleset or profile job is created for HR,
as the event list shows.) -/
theorem pipeline_abort_counterexample :
    (runPipeline envConnectorFails ["HR", "X"]).1 = [PEvent.visited "HR"]
    ∧ (runPipeline envConnectorFails ["HR", "X"]).2
        = Except.error (CEErr.remote "HTTP 500 for /database-connectors")
    ∧ ¬ PEvent.visited "X" ∈ (runPipeline envConnectorFails ["HR", "X"]).1 := by
  refine ⟨rfl, rfl, by decide⟩

/-- C1 amended: a CEError raised during connector, ruleset, bulk-table or
profile-job creation for a schema aborts the whole remaining run — the
pipeline returns the error and no schema after the failing one is visited;
a schema whose connector creation raises gets no ruleset and no profile
job; the only isolated failure is a profile-job creation that returns
success without an id, after which every later schema is still
processed. -/
theorem pipeline_error_isolation (env : String → SchemaRemote) (s : String)
    (rest : List String) (e : CEErr) :
    ((processSchema env s).2 = some e →
        runPipeline env (s :: rest) = ((processSchema env s).1, Except.error e))
    ∧ ((env s).findConnector = none → (env s).createConnector = Except.error e →
        processSchema env s = ([PEvent.visited s], some e))
    ∧ ((processSchema env s).2 = none →
        (runPipeline env (s :: rest)).1
            = (processSchema env s).1 ++ (runPipeline env rest).1
        ∧ (runPipeline env (s :: rest)).2 = (runPipeline env rest).2)
    ∧ (∀ cid rid, (env s).findConnector = some cid →
        (env s).createRuleset cid = Except.ok rid →
        (env s).bulkAdd rid (env s).tables = Except.ok () →
        (env s).createProfileJob rid = Except.ok none →
        (processSchema env s).2 = none
        ∧ ¬ ∃ jid, PEvent.jobCreated s jid ∈ (processSchema env s).1) := by
  refine ⟨?_, ?_, ?_, ?_⟩
  · intro ha
    rcases hps : processSchema env s with ⟨evs, r⟩
    rw [hps] at ha
    simp only at ha
    subst ha
    simp [runPipeline, hps]
  · intro hf hc
    simp [processSchema, hf, hc]
  · intro hnone
    rcases hps : processSchema env s with ⟨evs, r⟩
    rw [hps] at hnone
    simp only at hnone
    subst hnone
    simp [runPipeline, hps]
  · intro cid rid hf hrs hbulk hjob
    constructor
    · simp [processSchema, hf, hrs, hbulk, hjob]
    · rintro ⟨jid, hmem⟩
      simp [processSchema, hf, hrs, hbulk, hjob] at hmem

/-- Witness for C1 amended at concrete inputs: the HR connector failure
ends the two-schema run with the error and only the HR events, the failed
HR iteration produces no ruleset or job event, and a profile-job creation
without an id does not raise. -/
theorem pipeline_error_isolation_witness :
    runPipeline envConnectorFails ["HR", "X"]
        = ([PEvent.visited "HR"],
           Except.error (CEErr.remote "HTTP 500 for /database-connectors"))
    ∧ processSchema envConnectorFails "HR"
        = ([PEvent.visited "HR"],
           some (CEErr.remote "HTTP 500 for /database-connectors"))
    ∧ (processSchema envJobNoId "S").2 = none := by
  refine ⟨?_, ?_, ?_⟩
  · have h := (pipeline_error_isolation envConnectorFails "HR" ["X"]
      (CEErr.remote "HTTP 500 for /database-connectors")).1 rfl
    rw [h]
    rfl
  · exact (pipeline_error_isolation envConnectorFails "HR" []
      (CEErr.remote "HTTP 500 for /database-connectors")).2.1 rfl rfl
  · exact ((pipeline_error_isolation envJobNoId "S" []
      (CEErr.remote "unused")).2.2.2 7 8 rfl rfl rfl rfl).1

/-- C6: the single-run scheduler cannot fail with the not-found error the
claim describes, because the job-menu sort key at main.py line 828
references the unbound loop variable j (the serial branch at line 881
writes the evidently intended lambda x), so every non-empty job list
raises NameError before the id prompt and the not-found check; no
StartExecution call is issued either way. With the intended key, the
absent id 2 in the one-job list yields the not-found failure with no
StartExecution call, exactly as the claim states. -/
theorem singleRun_nameError_before_notFound :
    singleRunAsWritten [⟨1, "A"⟩] 2 = (Except.error RunErr.nameErrorUnboundJ, [])
    ∧ RunErr.nameErrorUnboundJ ≠ RunErr.notFound 2
    ∧ singleRunIntended [⟨1, "A"⟩] 2 = (Except.error (RunErr.notFound 2), []) := by
  refine ⟨rfl, by decide, rfl⟩

/-- C10: every authenticated remote-client operation — the list, ensure,
create, delete, start-execution and get-status calls — checks the auth
token (via _headers inside _request, or as the eagerly evaluated headers
argument of session.delete) before any HTTP request is sent: with no token
set, each operation returns the CEError and its sent-request log is empty,
so the remote state is unchanged. -/
theorem ops_require_token (t : Option String) (api : RemoteApi)
    (name schema dbType : String)
    (appId envId cid rid psid jobId execId : Nat) :
    tokenSet t = false →
    opListApplications t api = (Except.error CEErr.noToken, [])
    ∧ opEnsureApplication t api name = (Except.error CEErr.noToken, [])
    ∧ opListEnvironments t api appId = (Except.error CEErr.noToken, [])
    ∧ opEnsureEnvironment t api appId name = (Except.error CEErr.noToken, [])
    ∧ opListConnectors t api envId = (Except.error CEErr.noToken, [])
    ∧ opFindConnectorByName t api envId name = (Except.error CEErr.noToken, [])
    ∧ opCreateConnector t api dbType name envId = (Except.error CEErr.noToken, [])
    ∧ opCreateRuleset t api cid schema = (Except.error CEErr.noToken, [])
    ∧ opCreateProfileJob t api rid schema psid = (Except.error CEErr.noToken, [])
    ∧ opListProfileSets t api = (Except.error CEErr.noToken, [])
    ∧ opListProfileJobs t api envId = (Except.error CEErr.noToken, [])
    ∧ opStartExecution t api jobId = (Except.error CEErr.noToken, [])
    ∧ opGetExecutionStatus t api execId = (Except.error CEErr.noToken, [])
    ∧ opDeleteApplication t api appId = (Except.error CEErr.noToken, [])
    ∧ opDeleteEnvironment t api envId = (Except.error CEErr.noToken, []) := by
  intro h
  simp [opListApplications, opEnsureApplication, opListEnvironments,
    opEnsureEnvironment, opListConnectors, opFindConnectorByName,
    opCreateConnector, opCreateRuleset, opCreateProfileJob,
    opListProfileSets, opListProfileJobs, opStartExecution,
    opGetExecutionStatus, opDeleteApplication, opDeleteEnvironment,
    guardedCall, h]

/-- Witness for C10 with no token set and the stub remote: the
start-execution and ensure-application operations fail with the client
error and send nothing. -/
theorem ops_require_token_witness :
    opStartExecution none apiStub 5 = (Except.error CEErr.noToken, [])
    ∧ opEnsureApplication none apiStub "APP" = (Except.error CEErr.noToken, []) := by
  have h := ops_require_token none apiStub "APP" "HR" "ORACLE" 1 2 3 4 5 6 7
    (by decide)
  exact ⟨h.2.2.2.2.2.2.2.2.2.2.2.1, h.2.1⟩

end DbProfiler
